import Mathlib

/-!
Verification of the coffee-cafe drinks API (`backend/src/api.py`) against its
specification.  The route handlers are shallowly embedded from the Python
source; the persistence layer (`database/models.py`) is not part of the
sources and is modelled from the specification where noted.
-/

namespace CoffeeCafe

/-- A JSON value, the parse tree of the text produced by `json.dumps` and
consumed by `json.loads`.  The drink `recipe` column stores such a value
serialized as text; we work at the level of the parse tree, which the text
round trip preserves. -/
inductive Json where
  | null
  | bool (b : Bool)
  | num (n : Int)
  | str (s : String)
  | arr (xs : List Json)
  | obj (fields : List (String × Json))

/-- One entry of a drink recipe: a color and a numeric quantity of parts. -/
structure Ingredient where
  color : String
  parts : Int
deriving DecidableEq

/-- `json.dumps` of one recipe entry, as sent in a request payload. -/
def ingredientToJson (i : Ingredient) : Json :=
  .obj [("color", .str i.color), ("parts", .num i.parts)]

/-- Modelled from the spec: the recipe is "stored serialized as text"; this is
the serialization of an optional recipe list (`json.dumps(recipe)` where a
missing payload field is Python `None`, serialized as JSON `null`). -/
def recipeToJson : Option (List Ingredient) → Json
  | none => Json.null
  | some rs => Json.arr (rs.map ingredientToJson)

/-- Deserialization of one recipe entry back into its structured form. -/
def jsonToIngredient : Json → Option Ingredient
  | .obj (("color", .str c) :: ("parts", .num p) :: []) => some ⟨c, p⟩
  | _ => none

/-- Deserialization of a list of recipe entries; fails if any entry is
malformed. -/
def jsonToRecipeList : List Json → Option (List Ingredient)
  | [] => some []
  | j :: js =>
    match jsonToIngredient j, jsonToRecipeList js with
    | some i, some is => some (i :: is)
    | _, _ => none

/-- Modelled from the spec: deserialization of a stored recipe column
(`json.loads` followed by reading the structured entries); the invariant of the spec is that the stored text "is always valid serializable structured
data". -/
def jsonToRecipe : Json → Option (List Ingredient)
  | .arr xs => jsonToRecipeList xs
  | _ => none

/-- A row of the drinks table: an id, a (nullable) unique title, and the
recipe column holding the serialized recipe. -/
structure DrinkRow where
  id : Nat
  title : Option String
  recipe : Json

/-- JSON rendering of a nullable title column. -/
def optTitleJson : Option String → Json
  | none => Json.null
  | some t => Json.str t

/-- Modelled from the spec: `Drink.long()` from the missing
`database/models.py` — the full-detail projection
`\x7bid, title, recipe: [\x7bcolor, parts: exact\x7d]\x7d`, whose recipe is
the deserialization of the stored text. -/
def DrinkRow.long (d : DrinkRow) : Json :=
  .obj [("id", .num d.id), ("title", optTitleJson d.title), ("recipe", d.recipe)]

/-- Masks one recipe entry for the short form: the `parts` field is replaced
by the constant placeholder 1, everything else kept. -/
def maskIngredient : Json → Json
  | .obj fields => .obj (fields.map fun kv => if kv.1 = "parts" then (kv.1, .num 1) else kv)
  | j => j

/-- Masks a whole stored recipe for the short form. -/
def maskRecipe : Json → Json
  | .arr xs => .arr (xs.map maskIngredient)
  | j => j

/-- Modelled from the spec: `Drink.short()` from the missing
`database/models.py` — the public projection
`\x7bid, title, recipe: [\x7bcolor, parts: 1\x7d]\x7d` with the quantities
masked by the constant placeholder. -/
def DrinkRow.short (d : DrinkRow) : Json :=
  .obj [("id", .num d.id), ("title", optTitleJson d.title), ("recipe", maskRecipe d.recipe)]

/-- The drinks table together with the next id the store will assign. -/
structure Store where
  rows : List DrinkRow
  nextId : Nat

/-- Modelled from the spec: `queryById` — "returns the row or an explicit
not-found sentinel (never throws for absence)"; embeds
`Drink.query.filter_by(id=drink_id).one_or_none()`. -/
def Store.findRow (s : Store) (id0 : Nat) : Option DrinkRow :=
  s.rows.find? fun r => r.id = id0

/-- Modelled from the spec: `insert(drink)` — "assigns an id, persists the
row, fails with a storage error on constraint violation (e.g., duplicate
title), leaving state unchanged"; the title column is required and unique, so
a null or duplicate title is a constraint violation. -/
def Store.insert (s : Store) (title : Option String) (recipe : Json) :
    Except String (Store × DrinkRow) :=
  match title with
  | none => .error ("NOT NULL constraint failed: drinks.title")
  | some t =>
    if s.rows.any fun r => r.title = some t then
      .error ("UNIQUE constraint failed: drinks.title")
    else
      .ok (⟨s.rows ++ [⟨s.nextId, some t, recipe⟩], s.nextId + 1⟩, ⟨s.nextId, some t, recipe⟩)

/-- Modelled from the spec: `update(drink)` — "persists mutated fields of an
already-existing row; fails with a storage error on constraint violation",
the constraint being the unique title against every other row. -/
def Store.update (s : Store) (d : DrinkRow) : Except String Store :=
  if s.rows.any fun r => r.id ≠ d.id ∧ r.title = d.title then
    .error ("UNIQUE constraint failed: drinks.title")
  else
    .ok ⟨s.rows.map fun r => if r.id = d.id then d else r, s.nextId⟩

/-- Modelled from the spec: `delete(drink)` — "removes the row permanently"
(hard delete). -/
def Store.del (s : Store) (id0 : Nat) : Store :=
  ⟨s.rows.filter fun r => r.id ≠ id0, s.nextId⟩

/-- A Python exception escaping a statement of a view body: `flask.abort(c)`
raises an HTTP exception carrying `c`, and the persistence layer raises a
storage error on constraint violation. -/
inductive PyExc where
  | httpError (code : Nat)
  | storageError (msg : String)
deriving DecidableEq

/-- The outcome of a registered view function: a 200 JSON response, an
`abort` escaping the view, an uncaught non-HTTP exception propagating to the
framework, or the view returning Python `None` (no response at all). -/
inductive RouteResult where
  | ok (body : Json)
  | abort (code : Nat)
  | exn (msg : String)
  | noResponse

/-- The success body `\x7bsuccess: true, drinks: [...]\x7d` shared by the
drink routes. -/
def drinksResponse (ds : List Json) : Json :=
  .obj [("success", .bool true), ("drinks", .arr ds)]

/-- The success body of the delete route. -/
def deletedResponse (id0 : Nat) : Json :=
  .obj [("success", .bool true), ("deleted", .num id0)]

/-- The JSON body of a POST /drinks request: `body.get` of the two fields,
each defaulting to Python `None`. -/
structure PostBody where
  title : Option String
  recipe : Option (List Ingredient)

/-- The JSON body of a PATCH /drinks/\x7bid\x7d request. -/
structure PatchBody where
  title : Option String
  recipe : Option (List Ingredient)

/-- GET /drinks (`get_drinks`): public; returns the short projection of every
row. -/
def get_drinks (s : Store) : RouteResult × Store :=
  (.ok (drinksResponse (s.rows.map DrinkRow.short)), s)

/-- GET /drinks-detail (`get_drinks_details`): returns the long projection of
every row.  In the source the `requires_auth` decorator is commented out, so
the registered view takes no token and performs no permission check. -/
def get_drinks_details (s : Store) : RouteResult × Store :=
  (.ok (drinksResponse (s.rows.map DrinkRow.long)), s)

/-- POST /drinks (`add_drink`): with nonempty request data, reads `title` and
`recipe` (each possibly `None`), inserts `Drink(title=title,
recipe=json.dumps(recipe))`, and answers with the long form of the new row; with
empty request data it aborts 422.  There is no try/except around the insert,
so a storage error propagates out of the view uncaught. -/
def add_drink (body : Option PostBody) (s : Store) : RouteResult × Store :=
  match body with
  | some b =>
    match Store.insert s b.title (recipeToJson b.recipe) with
    | .ok (s', row) => (.ok (drinksResponse [row.long]), s')
    | .error m => (.exn m, s)
  | none => (.abort 422, s)

/-- The `try:` block of `patch_drink`: 404 on a missing id, 400 on a missing
title, then the title is set, the recipe replaced only when present in the
payload, and the row updated. -/
def patch_drink_try (body : PatchBody) (drink_id : Nat) (s : Store) :
    Except PyExc (Json × Store) :=
  match Store.findRow s drink_id with
  | none => .error (.httpError 404)
  | some drink =>
    match body.title with
    | none => .error (.httpError 400)
    | some t =>
      let drink' : DrinkRow :=
        ⟨drink.id, some t,
          match body.recipe with
          | some r => recipeToJson (some r)
          | none => drink.recipe⟩
      match Store.update s drink' with
      | .ok s' => .ok (drinksResponse [drink'.long], s')
      | .error m => .error (.storageError m)

/-- PATCH /drinks/\x7bid\x7d (`patch_drink`): the whole body runs inside
`try`, and `except Exception as e` only prints — the `abort(422)` is
commented out and nothing is returned, so every exception (including the 404
and 400 aborts raised inside the `try`) is swallowed and the view returns
Python `None`. -/
def patch_drink (body : PatchBody) (drink_id : Nat) (s : Store) :
    RouteResult × Store :=
  match patch_drink_try body drink_id s with
  | .ok (j, s') => (.ok j, s')
  | .error _ => (.noResponse, s)

/-- The `try:` block of `delete_drinks`: 404 on a missing id, otherwise the
row is deleted. -/
def delete_drinks_try (drink_id : Nat) (s : Store) :
    Except PyExc (Json × Store) :=
  match Store.findRow s drink_id with
  | none => .error (.httpError 404)
  | some _ => .ok (deletedResponse drink_id, Store.del s drink_id)

/-- DELETE /drinks/\x7bid\x7d (`delete_drinks`): the bare `except:` catches
every exception raised in the `try` — including the `abort(404)` for a
missing id — and re-aborts with 422. -/
def delete_drinks (drink_id : Nat) (s : Store) : RouteResult × Store :=
  match delete_drinks_try drink_id s with
  | .ok (j, s') => (.ok j, s')
  | .error _ => (.abort 422, s)

/-- The view registered for GET /drinks-detail as the request sees it: the
`@requires_auth` decorator is commented out in `api.py`, so the Authorization
header (if any) is never inspected. -/
def handle_get_drinks_detail (_authHeader : Option String) (s : Store) :
    RouteResult × Store :=
  get_drinks_details s

/-- The view registered for POST /drinks: the `@requires_auth` decorator is
commented out, so the Authorization header is never inspected. -/
def handle_post_drinks (_authHeader : Option String) (body : Option PostBody)
    (s : Store) : RouteResult × Store :=
  add_drink body s

/-- The view registered for PATCH /drinks/\x7bid\x7d: the `@requires_auth`
decorator is commented out, so the Authorization header is never
inspected. -/
def handle_patch_drink (_authHeader : Option String) (body : PatchBody)
    (drink_id : Nat) (s : Store) : RouteResult × Store :=
  patch_drink body drink_id s

/-- The view registered for DELETE /drinks/\x7bid\x7d: the `@requires_auth`
decorator is commented out, so the Authorization header is never
inspected. -/
def handle_delete_drink (_authHeader : Option String) (drink_id : Nat)
    (s : Store) : RouteResult × Store :=
  delete_drinks drink_id s

/-- The outcome of a Flask error handler: a JSON response with an HTTP
status, or the handler itself raising an exception. -/
inductive HandlerResult where
  | response (body : Json) (status : Nat)
  | raised (msg : String)

/-- The uniform error body `\x7bsuccess: false, error: code, message:
msg\x7d` the spec prescribes for translated errors. -/
def errBody (code : Int) (msg : String) : Json :=
  .obj [("success", .bool false), ("error", .num code), ("message", .str msg)]

/-- The 422 handler (`unprocessable`): its body computes
`"unprocessable"+error`, adding a string and the passed exception object —
in Python a `TypeError` — so the handler raises before `jsonify` runs and
never produces a response. -/
def unprocessable (_error : PyExc) : HandlerResult :=
  .raised ("TypeError: can only concatenate str to str")

/-- The 404 handler (`not_found`). -/
def not_found (_error : PyExc) : HandlerResult :=
  .response (errBody 404 ("resource not found")) 404

/-- The 400 handler (named `resource_not_found` in the source). -/
def resource_not_found (_error : PyExc) : HandlerResult :=
  .response (errBody 400 ("bad request")) 400

/-- The 401 handler (`unauthorized`). -/
def unauthorized (_error : PyExc) : HandlerResult :=
  .response (errBody 401 ("unauthorized")) 401

/-- The 500 handler (`internal_server_error`): it returns
`jsonify(\x7b...\x7d, 500)` — a single `jsonify` call over two arguments,
which serializes the two-element JSON array `[body, 500]` — and returns no
status tuple, so Flask serves it with the default status 200. -/
def internal_server_error (_error : PyExc) : HandlerResult :=
  .response (.arr [errBody 500 ("Internal Server Error"), .num 500]) 200

/-- A drinks table with two rows, used as a concrete state for the
evaluations below. -/
def latteRow : DrinkRow :=
  ⟨1, some ("Latte"), recipeToJson (some [⟨("yellow"), 3⟩])⟩

/-- Second concrete row. -/
def mochaRow : DrinkRow :=
  ⟨2, some ("Mocha"), recipeToJson (some [⟨("brown"), 2⟩])⟩

/-- A concrete store holding the two rows above, next id 3. -/
def store2 : Store := ⟨[latteRow, mochaRow], 3⟩

/-- The recipe column the PATCH handler writes for a row: the payload recipe
serialized when the payload carries one, the prior stored recipe when it is
absent. -/
def patchedRecipe (d : DrinkRow) : Option (List Ingredient) → Json
  | some r => recipeToJson (some r)
  | none => d.recipe

theorem jsonToIngredient_ingredientToJson (i : Ingredient) :
    jsonToIngredient (ingredientToJson i) = some i := rfl

theorem jsonToRecipeList_map_ingredientToJson (rs : List Ingredient) :
    jsonToRecipeList (rs.map ingredientToJson) = some rs := by
  induction rs with
  | nil => rfl
  | cons i is ih =>
    simp [jsonToRecipeList, jsonToIngredient_ingredientToJson, ih]

/-- Round trip: serializing a recipe and deserializing it yields the recipe
back exactly. -/
theorem jsonToRecipe_recipeToJson (rs : List Ingredient) :
    jsonToRecipe (recipeToJson (some rs)) = some rs := by
  simpa [recipeToJson, jsonToRecipe] using jsonToRecipeList_map_ingredientToJson rs

theorem Store.insert_of_fresh (s : Store) (t : String) (j : Json)
    (h : ∀ r ∈ s.rows, r.title ≠ some t) :
    Store.insert s (some t) j =
      .ok (⟨s.rows ++ [⟨s.nextId, some t, j⟩], s.nextId + 1⟩,
        ⟨s.nextId, some t, j⟩) := by
  have hany : (s.rows.any fun r => r.title = some t) = false := by
    cases hb : s.rows.any fun r => r.title = some t
    · rfl
    · obtain ⟨r, hr, hp⟩ := List.any_eq_true.mp hb
      exact absurd (of_decide_eq_true hp) (h r hr)
  simp only [Store.insert]
  rw [hany]
  simp

theorem Store.update_of_unique (s : Store) (d : DrinkRow)
    (h : ∀ r ∈ s.rows, r.id ≠ d.id → r.title ≠ d.title) :
    Store.update s d =
      .ok ⟨s.rows.map fun r => if r.id = d.id then d else r, s.nextId⟩ := by
  have hany : (s.rows.any fun r => r.id ≠ d.id ∧ r.title = d.title) = false := by
    cases hb : s.rows.any fun r => r.id ≠ d.id ∧ r.title = d.title
    · rfl
    · obtain ⟨r, hr, hp⟩ := List.any_eq_true.mp hb
      have hp' := of_decide_eq_true hp
      exact absurd hp'.2 (h r hr hp'.1)
  unfold Store.update
  rw [hany]
  simp

theorem find_after_replace (id0 : Nat) (d d' : DrinkRow) (hid : d'.id = d.id)
    (hdid : d.id = id0) :
    ∀ l : List DrinkRow, (l.find? fun r => r.id = id0) = some d →
      ((l.map fun r => if r.id = d.id then d' else r).find? fun r => r.id = id0)
        = some d' := by
  intro l
  induction l with
  | nil => intro hfind; simp at hfind
  | cons a l ih =>
    intro hfind
    by_cases ha : a.id = id0
    · rw [List.find?_cons_of_pos _ (by simpa using ha)] at hfind
      have had : a = d := by injection hfind
      subst had
      simp only [List.map_cons, if_pos rfl]
      exact List.find?_cons_of_pos _ (by simp [hid, hdid])
    · rw [List.find?_cons_of_neg _ (by simpa using ha)] at hfind
      have hne : a.id ≠ d.id := fun hc => ha (hc.trans hdid)
      simp only [List.map_cons, if_neg hne]
      rw [List.find?_cons_of_neg _ (by simpa using ha)]
      exact ih hfind

theorem maskIngredient_of_decode (j : Json) (i : Ingredient)
    (h : jsonToIngredient j = some i) :
    maskIngredient j = Json.obj [("color", .str i.color), ("parts", .num 1)] := by
  unfold jsonToIngredient at h
  split at h
  · cases h
    rfl
  · exact Option.noConfusion h

theorem maskList_of_decode :
    ∀ (xs : List Json) (ing : List Ingredient), jsonToRecipeList xs = some ing →
      xs.map maskIngredient =
        ing.map fun i => Json.obj [("color", .str i.color), ("parts", .num 1)] := by
  intro xs
  induction xs with
  | nil =>
    intro ing h
    cases h
    rfl
  | cons j js ih =>
    intro ing h
    unfold jsonToRecipeList at h
    split at h
    · cases h
      rename_i i is hji hjs
      simp only [List.map_cons]
      rw [maskIngredient_of_decode j i hji, ih is hjs]
    · exact Option.noConfusion h

/-- Claim C1: the claim says a request lacking the required permission gets
403 and a request with no bearer token gets 401 on the gated endpoints.  In
the source every `@requires_auth` decorator is commented out, so a request
carrying no bearer token at all is served normally by all four gated
endpoints: GET /drinks-detail answers 200 with the long list, POST /drinks
inserts a row, PATCH rewrites the row, and DELETE removes it. -/
theorem claim1_no_token_is_served :
    handle_get_drinks_detail none store2
      = (.ok (drinksResponse [latteRow.long, mochaRow.long]), store2)
    ∧ (handle_post_drinks none (some ⟨some ("Water"), some [⟨("blue"), 1⟩]⟩)
        store2).2.rows.length = 3
    ∧ (handle_patch_drink none ⟨some ("Cocoa"), none⟩ 1 store2).1
        = .ok (drinksResponse
            [DrinkRow.long ⟨1, some ("Cocoa"), recipeToJson (some [⟨("yellow"), 3⟩])⟩])
    ∧ handle_delete_drink none 1 store2
        = (.ok (deletedResponse 1), ⟨[mochaRow], 3⟩) :=
  ⟨rfl, rfl, rfl, rfl⟩

/-- Claim C2: the claim says PATCH/DELETE on a nonexistent id return 404.  In
the source the `abort(404)` is raised inside `try`: the `except Exception` of the PATCH handler swallows it and returns `None`, and the bare `except:` of the DELETE handler re-aborts with 422 — neither request yields a 404.  The row
count is indeed left unchanged. -/
theorem claim2_missing_id_not_404 :
    delete_drinks 9999 store2 = (.abort 422, store2)
    ∧ patch_drink ⟨some ("Water"), none⟩ 9999 store2 = (.noResponse, store2)
    ∧ (delete_drinks 9999 store2).2.rows.length = store2.rows.length
    ∧ (patch_drink ⟨some ("Water"), none⟩ 9999 store2).2.rows.length
        = store2.rows.length :=
  ⟨rfl, rfl, rfl, rfl⟩

/-- Claim C3: the claim says PATCH with no `title` on an existing id returns
400.  In the source the `abort(400)` is raised inside `try` and swallowed by
the `except Exception` branch, which returns `None` — no 400 response is
produced.  The stored row is left exactly as it was, as claimed. -/
theorem claim3_missing_title_swallowed :
    patch_drink ⟨none, some [⟨("blue"), 2⟩]⟩ 1 store2 = (.noResponse, store2)
    ∧ Store.findRow store2 1 = some latteRow :=
  ⟨rfl, rfl⟩

/-- Claim C4: the claim says a storage-constraint violation on POST /drinks
yields 422.  `add_drink` has no try/except, so the storage error (here a
duplicate title) propagates out of the view uncaught — a 500, not a 422.
The store is left unchanged. -/
theorem claim4_insert_error_uncaught :
    add_drink (some ⟨some ("Latte"), some [⟨("blue"), 1⟩]⟩) store2
      = (.exn ("UNIQUE constraint failed: drinks.title"), store2) :=
  rfl

/-- Claim C5: the claim says every translated error carries the uniform body
with the matching status.  The 404, 400 and 401 handlers do, but the 422
handler raises a `TypeError` (it concatenates a string with the exception
object) and never answers, and the 500 handler serves status 200 with a
two-element JSON array because the status sits inside `jsonify`. -/
theorem claim5_error_translation_broken :
    unprocessable (.httpError 422)
      = .raised ("TypeError: can only concatenate str to str")
    ∧ internal_server_error (.httpError 500)
        = .response (.arr [errBody 500 ("Internal Server Error"), .num 500]) 200
    ∧ not_found (.httpError 404) = .response (errBody 404 ("resource not found")) 404
    ∧ resource_not_found (.httpError 400) = .response (errBody 400 ("bad request")) 400
    ∧ unauthorized (.httpError 401) = .response (errBody 401 ("unauthorized")) 401 :=
  ⟨rfl, rfl, rfl, rfl, rfl⟩

/-- Claim C6: POST /drinks with an empty request body aborts 422 before any
field is read; when a body is present, a missing `title` is passed through as
null and surfaces only as the not-null constraint error of the storage layer, and
a missing `recipe` is stored as JSON null with no validation error. -/
theorem claim6_post_body_gate (s : Store) (rec : Option (List Ingredient))
    (t : String) (hfresh : ∀ r ∈ s.rows, r.title ≠ some t) :
    add_drink none s = (.abort 422, s)
    ∧ add_drink (some ⟨none, rec⟩) s
        = (.exn ("NOT NULL constraint failed: drinks.title"), s)
    ∧ add_drink (some ⟨some t, none⟩) s
        = (.ok (drinksResponse [DrinkRow.long ⟨s.nextId, some t, Json.null⟩]),
            ⟨s.rows ++ [⟨s.nextId, some t, Json.null⟩], s.nextId + 1⟩) := by
  refine ⟨rfl, rfl, ?_⟩
  have h := Store.insert_of_fresh s t (recipeToJson none) hfresh
  show (match Store.insert s (some t) (recipeToJson none) with
    | .ok (s', row) => (RouteResult.ok (drinksResponse [row.long]), s')
    | .error m => (RouteResult.exn m, s)) = _
  rw [h]
  rfl

/-- Claim C6 witness at a concrete store and payloads. -/
theorem claim6_witness :
    add_drink none store2 = (.abort 422, store2)
    ∧ add_drink (some ⟨none, some [⟨("blue"), 1⟩]⟩) store2
        = (.exn ("NOT NULL constraint failed: drinks.title"), store2)
    ∧ add_drink (some ⟨some ("Water"), none⟩) store2
        = (.ok (drinksResponse [DrinkRow.long ⟨3, some ("Water"), Json.null⟩]),
            ⟨store2.rows ++ [⟨3, some ("Water"), Json.null⟩], 4⟩) :=
  claim6_post_body_gate store2 (some [⟨("blue"), 1⟩]) ("Water") (by decide)

/-- Claim C7: a drink payload accepted by POST /drinks (the insert succeeds)
is stored serialized, the detail endpoint lists its long form, and the stored
recipe deserializes back to exactly the recipe given at creation: the round
trip is the identity. -/
theorem claim7_round_trip (s : Store) (t : String) (rec : List Ingredient)
    (s' : Store) (row : DrinkRow)
    (h : Store.insert s (some t) (recipeToJson (some rec)) = .ok (s', row)) :
    add_drink (some ⟨some t, some rec⟩) s = (.ok (drinksResponse [row.long]), s')
    ∧ get_drinks_details s' = (.ok (drinksResponse (s'.rows.map DrinkRow.long)), s')
    ∧ row ∈ s'.rows
    ∧ row.recipe = recipeToJson (some rec)
    ∧ jsonToRecipe row.recipe = some rec := by
  by_cases hdup : (s.rows.any fun r => r.title = some t) = true
  · exfalso
    simp only [Store.insert, hdup, if_true] at h
    exact Except.noConfusion h
  · have hfresh : ∀ r ∈ s.rows, r.title ≠ some t := by
      intro r hr hc
      exact hdup (List.any_eq_true.mpr ⟨r, hr, decide_eq_true hc⟩)
    rw [Store.insert_of_fresh s t _ hfresh] at h
    have h' := h
    simp only [Except.ok.injEq, Prod.mk.injEq] at h'
    obtain ⟨hs', hrow⟩ := h'
    subst hs'
    subst hrow
    refine ⟨?_, rfl, ?_, rfl, jsonToRecipe_recipeToJson rec⟩
    · show (match Store.insert s (some t) (recipeToJson (some rec)) with
        | .ok (s', row) => (RouteResult.ok (drinksResponse [row.long]), s')
        | .error m => (RouteResult.exn m, s)) = _
      rw [Store.insert_of_fresh s t _ hfresh]
    · simp

/-- Claim C7 witness: creating "Water" with a one-entry blue recipe on the
two-drink store round-trips the recipe exactly. -/
theorem claim7_witness :
    add_drink (some ⟨some ("Water"), some [⟨("blue"), 1⟩]⟩) store2
      = (.ok (drinksResponse
          [DrinkRow.long ⟨3, some ("Water"), recipeToJson (some [⟨("blue"), 1⟩])⟩]),
        ⟨store2.rows ++ [⟨3, some ("Water"), recipeToJson (some [⟨("blue"), 1⟩])⟩], 4⟩)
    ∧ get_drinks_details
        ⟨store2.rows ++ [⟨3, some ("Water"), recipeToJson (some [⟨("blue"), 1⟩])⟩], 4⟩
      = (.ok (drinksResponse
          ((⟨store2.rows ++ [⟨3, some ("Water"), recipeToJson (some [⟨("blue"), 1⟩])⟩],
              4⟩ : Store).rows.map DrinkRow.long)),
        ⟨store2.rows ++ [⟨3, some ("Water"), recipeToJson (some [⟨("blue"), 1⟩])⟩], 4⟩)
    ∧ (⟨3, some ("Water"), recipeToJson (some [⟨("blue"), 1⟩])⟩ : DrinkRow)
        ∈ (⟨store2.rows ++ [⟨3, some ("Water"), recipeToJson (some [⟨("blue"), 1⟩])⟩],
            4⟩ : Store).rows
    ∧ (⟨3, some ("Water"), recipeToJson (some [⟨("blue"), 1⟩])⟩ : DrinkRow).recipe
        = recipeToJson (some [⟨("blue"), 1⟩])
    ∧ jsonToRecipe
        (⟨3, some ("Water"), recipeToJson (some [⟨("blue"), 1⟩])⟩ : DrinkRow).recipe
      = some [⟨("blue"), 1⟩] :=
  claim7_round_trip store2 ("Water") [⟨("blue"), 1⟩]
    ⟨store2.rows ++ [⟨3, some ("Water"), recipeToJson (some [⟨("blue"), 1⟩])⟩], 4⟩
    ⟨3, some ("Water"), recipeToJson (some [⟨("blue"), 1⟩])⟩
    (Store.insert_of_fresh store2 ("Water")
      (recipeToJson (some [⟨("blue"), 1⟩])) (by decide))

/-- Claim C8: the public GET /drinks response is built from the short
projection, and for every stored drink whose recipe column deserializes, the
recipe entries of the short form carry the constant placeholder 1 as `parts` —
never the true quantity. -/
theorem claim8_short_masks_parts (s : Store) (d : DrinkRow)
    (ing : List Ingredient) (_hmem : d ∈ s.rows)
    (hdec : jsonToRecipe d.recipe = some ing) :
    get_drinks s = (.ok (drinksResponse (s.rows.map DrinkRow.short)), s)
    ∧ DrinkRow.short d
        = Json.obj [("id", .num d.id), ("title", optTitleJson d.title),
            ("recipe", .arr (ing.map fun i =>
              Json.obj [("color", .str i.color), ("parts", .num 1)]))] := by
  refine ⟨rfl, ?_⟩
  cases hd : d.recipe with
  | arr xs =>
    have hlist : jsonToRecipeList xs = some ing := by
      rw [hd] at hdec
      simpa [jsonToRecipe] using hdec
    show Json.obj [("id", _), ("title", _), ("recipe", maskRecipe d.recipe)] = _
    rw [hd]
    simp only [maskRecipe]
    rw [maskList_of_decode xs ing hlist]
  | null =>
    rw [hd] at hdec
    simp [jsonToRecipe] at hdec
  | bool b =>
    rw [hd] at hdec
    simp [jsonToRecipe] at hdec
  | num n =>
    rw [hd] at hdec
    simp [jsonToRecipe] at hdec
  | str st =>
    rw [hd] at hdec
    simp [jsonToRecipe] at hdec
  | obj fs =>
    rw [hd] at hdec
    simp [jsonToRecipe] at hdec

/-- Claim C8 witness: in the two-drink store, the short form of the Latte masks
its 3 parts of yellow down to the placeholder 1. -/
theorem claim8_witness :
    get_drinks store2 = (.ok (drinksResponse (store2.rows.map DrinkRow.short)), store2)
    ∧ DrinkRow.short latteRow
        = Json.obj [("id", .num 1), ("title", optTitleJson (some ("Latte"))),
            ("recipe", .arr ([(⟨("yellow"), 3⟩ : Ingredient)].map fun i =>
              Json.obj [("color", .str i.color), ("parts", .num 1)]))] :=
  claim8_short_masks_parts store2 latteRow [⟨("yellow"), 3⟩]
    (List.mem_cons_self latteRow [mochaRow]) rfl

/-- Claim C9 counterexample: the claim as stated fails.  Drink 1 exists and
the PATCH payload carries both a title and a recipe, but the new title
"Mocha" collides with the title of row 2, so the update raises a storage error
that the handler swallows: the request produces no response and the stored
recipe still deserializes to the old yellow entry instead of being replaced
wholesale by the blue payload recipe. -/
theorem claim9_counterexample :
    patch_drink ⟨some ("Mocha"), some [⟨("blue"), 2⟩]⟩ 1 store2
      = (.noResponse, store2)
    ∧ ((Store.findRow (patch_drink ⟨some ("Mocha"), some [⟨("blue"), 2⟩]⟩ 1
          store2).2 1).map fun r => jsonToRecipe r.recipe)
        = some (some [⟨("yellow"), 3⟩])
    ∧ some (some [(⟨("yellow"), 3⟩ : Ingredient)]) ≠ some (some [⟨("blue"), 2⟩]) :=
  ⟨rfl, rfl, by decide⟩

/-- Claim C9 as amended: for an existing drink id and a PATCH payload
carrying a title, provided the new title does not violate the unique-title
storage constraint against any other row, the handler succeeds; the stored
row keeps its id, takes the new title, and its recipe is replaced wholesale
by the payload recipe when one is present and preserved unchanged when the
payload omits it. -/
theorem claim9_patch_recipe_semantics (s : Store) (id0 : Nat) (d : DrinkRow)
    (t : String) (rec? : Option (List Ingredient))
    (hfind : Store.findRow s id0 = some d)
    (huniq : ∀ r ∈ s.rows, r.id ≠ d.id → r.title ≠ some t) :
    patch_drink ⟨some t, rec?⟩ id0 s
      = (.ok (drinksResponse [DrinkRow.long ⟨d.id, some t, patchedRecipe d rec?⟩]),
          ⟨s.rows.map fun r =>
            if r.id = d.id then ⟨d.id, some t, patchedRecipe d rec?⟩ else r,
            s.nextId⟩)
    ∧ Store.findRow
        (⟨s.rows.map fun r =>
            if r.id = d.id then ⟨d.id, some t, patchedRecipe d rec?⟩ else r,
          s.nextId⟩ : Store) id0
        = some ⟨d.id, some t, patchedRecipe d rec?⟩
    ∧ patchedRecipe d none = d.recipe
    ∧ (∀ r, patchedRecipe d (some r) = recipeToJson (some r)) := by
  have hdid : d.id = id0 := by
    have h1 : List.find? (fun r => decide (r.id = id0)) s.rows = some d := hfind
    have h2 := List.find?_some h1
    exact of_decide_eq_true h2
  have htry : patch_drink_try ⟨some t, rec?⟩ id0 s
      = .ok (drinksResponse [DrinkRow.long ⟨d.id, some t, patchedRecipe d rec?⟩],
          ⟨s.rows.map fun r =>
            if r.id = d.id then ⟨d.id, some t, patchedRecipe d rec?⟩ else r,
            s.nextId⟩) := by
    cases rec? with
    | none =>
      have hupd := Store.update_of_unique s ⟨d.id, some t, d.recipe⟩ huniq
      simp only [patch_drink_try, hfind, patchedRecipe]
      rw [hupd]
    | some r =>
      have hupd := Store.update_of_unique s ⟨d.id, some t, recipeToJson (some r)⟩ huniq
      simp only [patch_drink_try, hfind, patchedRecipe]
      rw [hupd]
  refine ⟨?_, ?_, rfl, fun r => rfl⟩
  · show (match patch_drink_try ⟨some t, rec?⟩ id0 s with
      | .ok (j, s') => (RouteResult.ok j, s')
      | .error _ => (RouteResult.noResponse, s)) = _
    rw [htry]
  · exact find_after_replace id0 d ⟨d.id, some t, patchedRecipe d rec?⟩ rfl hdid
      s.rows hfind

/-- Claim C9 witness: patching drink 1 to the fresh title "Cortado" with a
new one-entry white recipe succeeds and replaces the stored recipe
wholesale. -/
theorem claim9_witness :
    patch_drink ⟨some ("Cortado"), some [⟨("white"), 2⟩]⟩ 1 store2
      = (.ok (drinksResponse
          [DrinkRow.long ⟨latteRow.id, some ("Cortado"),
            patchedRecipe latteRow (some [⟨("white"), 2⟩])⟩]),
          ⟨store2.rows.map fun r =>
            if r.id = latteRow.id then
              ⟨latteRow.id, some ("Cortado"),
                patchedRecipe latteRow (some [⟨("white"), 2⟩])⟩
            else r,
            store2.nextId⟩)
    ∧ Store.findRow
        (⟨store2.rows.map fun r =>
            if r.id = latteRow.id then
              ⟨latteRow.id, some ("Cortado"),
                patchedRecipe latteRow (some [⟨("white"), 2⟩])⟩
            else r,
          store2.nextId⟩ : Store) 1
        = some ⟨latteRow.id, some ("Cortado"),
            patchedRecipe latteRow (some [⟨("white"), 2⟩])⟩
    ∧ patchedRecipe latteRow none = latteRow.recipe
    ∧ (∀ r, patchedRecipe latteRow (some r) = recipeToJson (some r)) :=
  claim9_patch_recipe_semantics store2 1 latteRow ("Cortado")
    (some [⟨("white"), 2⟩]) rfl (by decide)

/-- Claim C10: the two read endpoints return the store exactly as given: they
only project rows and never insert, update or delete one. -/
theorem claim10_reads_pure (s : Store) :
    (get_drinks s).2 = s ∧ (get_drinks_details s).2 = s :=
  ⟨rfl, rfl⟩

end CoffeeCafe
